import Mathlib

/-!
Shallow embedding of the SmartStick BLE controller component
(`src/app/(tabs)/index.tsx`, the later revision with the gait telemetry
listener).  Pure state is modelled as an explicit `AppState`; every handler
becomes a function from state (plus the outcomes of the asynchronous
transport calls it awaits, passed as Boolean oracles) to the new state
together with the list of transport calls it issued.
-/

/-- Value of a JavaScript numeric expression that may be `undefined`,
as produced by out-of-range array indexing: `data.value[0]` on an empty
buffer evaluates to `undefined` (modelled as `none`), not an exception. -/
abbrev JSNum := Option Nat

/-- The `BluetoothDevice` interface of the source: an id and an optional
advertised name. -/
structure BluetoothDevice where
  id : String
  name : Option String
deriving DecidableEq

/-- JavaScript truthiness of the optional `device.name` string: `undefined`
and the empty string are falsy, every other string is truthy. -/
def nameTruthy : Option String → Bool
  | none => false
  | some s => !s.isEmpty

/-- One step of the `BleManagerDiscoverPeripheral` listener:
`if (device.name) setDevices(prev => prev.find(d => d.id === device.id) ? prev : [...prev, device])`. -/
def discoverStep (prevDevices : List BluetoothDevice) (device : BluetoothDevice) :
    List BluetoothDevice :=
  if nameTruthy device.name = true then
    if prevDevices.any (fun d => d.id == device.id) = true then prevDevices
    else prevDevices ++ [device]
  else prevDevices

/-- Folding a whole sequence of discovery events into the device list. -/
def processDiscoveries (init : List BluetoothDevice) (events : List BluetoothDevice) :
    List BluetoothDevice :=
  events.foldl discoverStep init

/-- Body of the `BleManagerDidUpdateValueForCharacteristic` listener:
`const newValue = data.value[0]; setGaitData(cur => [...cur.slice(1), newValue])`.
The index read `data.value[0]` is unguarded, so on an empty buffer the
appended element is the `undefined` value (`none`). -/
def updateListenerGait (currentData : List JSNum) (value : List Nat) : List JSNum :=
  currentData.drop 1 ++ [value.head?]

/-- Initial gait series: `useState<number[]>([0,0,0,0,0,0,0,0,0,0])`. -/
def gaitDataInit : List JSNum :=
  [some 0, some 0, some 0, some 0, some 0, some 0, some 0, some 0, some 0, some 0]

/-- The three feature toggles of the UI. -/
inductive Feature where
  | RAS
  | Haptic
  | Laser
deriving DecidableEq

/-- The command string chosen at each Switch call site:
`v ? "RAS:1" : "RAS:0"`, `v ? "HAP:1" : "HAP:0"`, `v ? "LAS:1" : "LAS:0"`. -/
def encodeCommand : Feature → Bool → String
  | .RAS, v => if v then "RAS:1" else "RAS:0"
  | .Haptic, v => if v then "HAP:1" else "HAP:0"
  | .Laser, v => if v then "LAS:1" else "LAS:0"

/-- Byte encoding of a command string:
`commandString.split('').map(char => char.charCodeAt(0))` (one code point per
character; all commands are ASCII, where `charCodeAt` agrees with the code
point). -/
def stringToBytes (commandString : String) : List Nat :=
  commandString.toList.map Char.toNat

/-- The hardcoded service UUID. -/
def SERVICE_UUID : String := "1234abcd-0000-1000-8000-00805f9b34fb"

/-- The hardcoded characteristic UUID. -/
def CHARACTERISTIC_UUID : String := "abcd1234-0000-1000-8000-00805f9b34fb"

/-- A call into the external BLE transport (`BleManager`). -/
inductive Transport where
  | scan (serviceUUIDs : List String) (seconds : Nat) (allowDuplicates : Bool)
  | connect (id : String)
  | retrieveServices (id : String)
  | startNotification (id serviceUUID charUUID : String)
  | write (id serviceUUID charUUID : String) (bytes : List Nat)
deriving DecidableEq

/-- Outcome of `sendCommandToStick`: early return on a null
`connectedDeviceId` (the not-connected guard), a successful write, or a
caught-and-logged write failure. -/
inductive SendOutcome where
  | notConnected
  | sent
  | transportFailure
deriving DecidableEq

/-- The `sendCommandToStick` handler.  `writeOk` is the outcome of the
awaited `BleManager.write`; a rejection is caught and logged, never
rethrown.  Returns the transport calls issued and the outcome. -/
def sendCommandToStick (connectedDeviceId : Option String) (commandString : String)
    (writeOk : Bool) : List Transport × SendOutcome :=
  match connectedDeviceId with
  | none => ([], .notConnected)
  | some id =>
    let byteData := stringToBytes commandString
    ([Transport.write id SERVICE_UUID CHARACTERISTIC_UUID byteData],
     if writeOk then .sent else .transportFailure)

/-- The component's React state. -/
structure AppState where
  isScanning : Bool
  devices : List BluetoothDevice
  connectedDeviceId : Option String
  isRasEnabled : Bool
  isHapticEnabled : Bool
  isLaserEnabled : Bool
  gaitData : List JSNum
deriving DecidableEq

/-- The `useState` initial values of the component. -/
def initialState : AppState :=
  { isScanning := false
    devices := []
    connectedDeviceId := none
    isRasEnabled := false
    isHapticEnabled := false
    isLaserEnabled := false
    gaitData := gaitDataInit }

/-- The `startScan` handler.  `scanOk` is the outcome of the
`BleManager.scan` promise; its rejection handler resets `isScanning`. -/
def startScan (s : AppState) (scanOk : Bool) : AppState × List Transport :=
  if s.isScanning then (s, [])
  else
    let s1 := { s with devices := [], isScanning := true }
    if scanOk then (s1, [Transport.scan [] 5 true])
    else ({ s1 with isScanning := false }, [Transport.scan [] 5 true])

/-- User-visible alert raised at the end of `connectToDevice`. -/
inductive ConnectAlert where
  | connectedAndListening
  | failedToConnect
deriving DecidableEq

/-- The `connectToDevice` handler of the telemetry revision:
`await connect(id); setConnectedDeviceId(id); await retrieveServices(id);
await startNotification(id, SERVICE_UUID, CHAR_UUID)`, all inside one
try/catch whose catch alerts "Failed to connect".  The three Boolean
oracles are the outcomes of the three awaited transport calls, in order. -/
def connectToDevice (s : AppState) (id : String)
    (connectOk retrieveOk subscribeOk : Bool) :
    AppState × List Transport × ConnectAlert :=
  if !connectOk then (s, [Transport.connect id], .failedToConnect)
  else
    let s1 := { s with connectedDeviceId := some id }
    if !retrieveOk then
      (s1, [Transport.connect id, Transport.retrieveServices id], .failedToConnect)
    else if !subscribeOk then
      (s1, [Transport.connect id, Transport.retrieveServices id,
            Transport.startNotification id SERVICE_UUID CHARACTERISTIC_UUID],
       .failedToConnect)
    else
      (s1, [Transport.connect id, Transport.retrieveServices id,
            Transport.startNotification id SERVICE_UUID CHARACTERISTIC_UUID],
       .connectedAndListening)

/-- The RAS Switch `onValueChange` handler:
`setIsRasEnabled(v); sendCommandToStick(v ? "RAS:1" : "RAS:0")`. -/
def toggleRas (s : AppState) (newValue : Bool) (writeOk : Bool) :
    AppState × List Transport × SendOutcome :=
  let s1 := { s with isRasEnabled := newValue }
  let r := sendCommandToStick s1.connectedDeviceId (encodeCommand .RAS newValue) writeOk
  (s1, r.1, r.2)

/-- The Haptic Switch `onValueChange` handler. -/
def toggleHaptic (s : AppState) (newValue : Bool) (writeOk : Bool) :
    AppState × List Transport × SendOutcome :=
  let s1 := { s with isHapticEnabled := newValue }
  let r := sendCommandToStick s1.connectedDeviceId (encodeCommand .Haptic newValue) writeOk
  (s1, r.1, r.2)

/-- The Laser Switch `onValueChange` handler. -/
def toggleLaser (s : AppState) (newValue : Bool) (writeOk : Bool) :
    AppState × List Transport × SendOutcome :=
  let s1 := { s with isLaserEnabled := newValue }
  let r := sendCommandToStick s1.connectedDeviceId (encodeCommand .Laser newValue) writeOk
  (s1, r.1, r.2)

/-- The discovery listener lifted to the whole component state. -/
def discoverEvent (s : AppState) (device : BluetoothDevice) : AppState :=
  { s with devices := discoverStep s.devices device }

/-- The `BleManagerStopScan` listener: `setIsScanning(false)`. -/
def stopScanEvent (s : AppState) : AppState :=
  { s with isScanning := false }

/-- The characteristic-update listener lifted to the whole component state. -/
def updateEvent (s : AppState) (value : List Nat) : AppState :=
  { s with gaitData := updateListenerGait s.gaitData value }

/-- A state with a scan in progress, for concrete instantiations. -/
def scanningState : AppState := { initialState with isScanning := true }

/-- A state connected to peripheral "AA:BB", for concrete instantiations. -/
def connectedState : AppState := { initialState with connectedDeviceId := some "AA:BB" }

/-- Claim C1: for a gait series of length 10 and a notification carrying at
least one byte, the telemetry update yields a series of length exactly 10,
whose elements 0..8 equal the previous series' elements 1..9, whose element 9
is the first payload byte, and which does not depend on any further bytes. -/
theorem C1_telemetry_shift (g : List JSNum) (b : Nat) (rest : List Nat)
    (h : g.length = 10) :
    (updateListenerGait g (b :: rest)).length = 10 ∧
    (updateListenerGait g (b :: rest)).take 9 = g.drop 1 ∧
    (updateListenerGait g (b :: rest))[9]? = some (some b) ∧
    ∀ rest2, updateListenerGait g (b :: rest2) = updateListenerGait g (b :: rest) := by
  have hd : (g.drop 1).length = 9 := by simp [h]
  refine ⟨?_, ?_, ?_, fun rest2 => rfl⟩
  · simp [updateListenerGait, h]
  · show ((g.drop 1) ++ [some b]).take 9 = g.drop 1
    rw [← hd]
    exact List.take_left _ _
  · show ((g.drop 1) ++ [some b])[9]? = some (some b)
    rw [List.getElem?_append_right (by omega)]
    simp [h]

/-- Witness for C1 at the concrete all-zero series and payload `[5, 7]`. -/
theorem C1_telemetry_shift_witness :
    (updateListenerGait gaitDataInit (5 :: [7])).length = 10 ∧
    (updateListenerGait gaitDataInit (5 :: [7]))[9]? = some (some 5) :=
  ⟨(C1_telemetry_shift gaitDataInit 5 [7] (by decide)).1,
   (C1_telemetry_shift gaitDataInit 5 [7] (by decide)).2.2.1⟩

/-- Claim C2: for each feature and Boolean state the encoded command is one
of the six literal strings, and its byte encoding (one code point per
character) has length exactly 5 with every byte in 0–127. -/
theorem C2_encode_fixed_strings (f : Feature) (b : Bool) :
    (encodeCommand f b = "RAS:1" ∨ encodeCommand f b = "RAS:0" ∨
     encodeCommand f b = "HAP:1" ∨ encodeCommand f b = "HAP:0" ∨
     encodeCommand f b = "LAS:1" ∨ encodeCommand f b = "LAS:0") ∧
    stringToBytes (encodeCommand f b) = (encodeCommand f b).toList.map Char.toNat ∧
    (stringToBytes (encodeCommand f b)).length = 5 ∧
    (stringToBytes (encodeCommand f b)).all (fun x => x ≤ 127) = true := by
  cases f <;> cases b <;> exact ⟨by decide, rfl, by decide, by decide⟩

/-- Claim C3: when no peripheral is connected (`connectedDeviceId` is null)
the send handler issues no transport call at all and takes the
not-connected early-return path, for every command string and every
transport behaviour. -/
theorem C3_send_requires_connection (commandString : String) (writeOk : Bool) :
    sendCommandToStick none commandString writeOk = ([], SendOutcome.notConnected) :=
  rfl

/-- Claim C4, evaluated at the failing input: on an empty notification
payload the handler does not skip the update.  The read of index 0 is
unguarded, so the series still shifts and its last slot becomes the
`undefined` value: the gait series changes rather than being left
unchanged. -/
theorem C4_empty_payload_not_skipped :
    updateListenerGait gaitDataInit [] ≠ gaitDataInit ∧
    (updateListenerGait gaitDataInit [])[9]? = some none ∧
    (updateListenerGait gaitDataInit []).length = 10 := by
  refine ⟨by decide, rfl, rfl⟩

/-- Claim C5, evaluated at the failing input: when `connect` succeeds and
the subscribe step (`startNotification`) fails, the catch alerts a single
combined failure but `connectedDeviceId` is left set to the peripheral id
(it was set immediately after `connect` and the catch never clears it), a
half-connected state. -/
theorem C5_subscribe_failure_half_connected :
    ((connectToDevice initialState "AA:BB" true true false).1).connectedDeviceId
      = some "AA:BB" ∧
    (connectToDevice initialState "AA:BB" true true false).2.2
      = ConnectAlert.failedToConnect :=
  ⟨rfl, rfl⟩

/-- One discovery event preserves the list invariant: ids stay distinct and
every surfaced entry keeps a truthy (non-empty) name. -/
lemma discoverStep_preserves (acc : List BluetoothDevice) (e : BluetoothDevice)
    (h1 : (acc.map (fun d => d.id)).Nodup)
    (h2 : acc.all (fun d => nameTruthy d.name) = true) :
    ((discoverStep acc e).map (fun d => d.id)).Nodup ∧
    (discoverStep acc e).all (fun d => nameTruthy d.name) = true := by
  unfold discoverStep
  by_cases hn : nameTruthy e.name = true
  · rw [if_pos hn]
    by_cases ha : acc.any (fun d => d.id == e.id) = true
    · rw [if_pos ha]
      exact ⟨h1, h2⟩
    · rw [if_neg ha]
      constructor
      · rw [List.map_append, List.nodup_append]
        refine ⟨h1, by simp, ?_⟩
        intro a hmem
        simp only [List.map_cons, List.map_nil, List.mem_singleton]
        obtain ⟨d, hd, rfl⟩ := List.mem_map.mp hmem
        intro heq
        exact ha (List.any_eq_true.mpr ⟨d, hd, by simp [heq]⟩)
      · rw [List.all_append]
        simp [h2, hn]
  · rw [if_neg hn]
    exact ⟨h1, h2⟩

/-- The discovery-list invariant is preserved by any sequence of events. -/
lemma processDiscoveries_preserves (events : List BluetoothDevice) :
    ∀ acc, (acc.map (fun d => d.id)).Nodup →
      acc.all (fun d => nameTruthy d.name) = true →
      ((processDiscoveries acc events).map (fun d => d.id)).Nodup ∧
      (processDiscoveries acc events).all (fun d => nameTruthy d.name) = true := by
  induction events with
  | nil => exact fun acc h1 h2 => ⟨h1, h2⟩
  | cons e es ih =>
    intro acc h1 h2
    have hstep := discoverStep_preserves acc e h1 h2
    exact ih (discoverStep acc e) hstep.1 hstep.2

/-- Claim C6: for every sequence of discovery events, possibly with
duplicate ids and unnamed peripherals, the resulting device list contains
each peripheral id at most once and only entries with a truthy (non-empty)
name. -/
theorem C6_discovery_dedup_and_named (events : List BluetoothDevice) :
    ((processDiscoveries [] events).map (fun d => d.id)).Nodup ∧
    (processDiscoveries [] events).all (fun d => nameTruthy d.name) = true :=
  processDiscoveries_preserves events [] (by simp) rfl

/-- Claim C7: the Switch handlers set the toggle to the new value before
sending; the value is kept both when the write succeeds and when it fails
(the failure is caught as `transportFailure` and the command is dropped:
the single attempted write is the only transport call, with no retry). -/
theorem C7_toggle_does_not_revert (s : AppState) (v ok : Bool) (id : String)
    (h : s.connectedDeviceId = some id) :
    ((toggleRas s v ok).1).isRasEnabled = v ∧
    ((toggleHaptic s v ok).1).isHapticEnabled = v ∧
    ((toggleLaser s v ok).1).isLaserEnabled = v ∧
    (toggleRas s v false).2.2 = SendOutcome.transportFailure ∧
    (toggleRas s v ok).2.1 =
      [Transport.write id SERVICE_UUID CHARACTERISTIC_UUID
        (stringToBytes (encodeCommand Feature.RAS v))] := by
  refine ⟨rfl, rfl, rfl, ?_, ?_⟩ <;> simp [toggleRas, sendCommandToStick, h]

/-- Witness for C7 at a concrete connected state with a failing write. -/
theorem C7_toggle_does_not_revert_witness :
    ((toggleRas connectedState true false).1).isRasEnabled = true ∧
    (toggleRas connectedState true false).2.2 = SendOutcome.transportFailure :=
  ⟨(C7_toggle_does_not_revert connectedState true false "AA:BB" rfl).1,
   (C7_toggle_does_not_revert connectedState true false "AA:BB" rfl).2.2.2.1⟩

/-- Claim C8: the gait series starts as ten zeros before any connection,
every telemetry update preserves length exactly 10, and every other
operation of the component leaves the series untouched. -/
theorem C8_gait_length_invariant :
    (∀ g p, g.length = 10 → (updateListenerGait g p).length = 10) ∧
    gaitDataInit.length = 10 ∧
    gaitDataInit.all (fun x => x = some 0) = true ∧
    initialState.gaitData = gaitDataInit ∧
    initialState.connectedDeviceId = none ∧
    (∀ s p, (updateEvent s p).gaitData = updateListenerGait s.gaitData p) ∧
    (∀ s ok, ((startScan s ok).1).gaitData = s.gaitData) ∧
    (∀ s id c r n, ((connectToDevice s id c r n).1).gaitData = s.gaitData) ∧
    (∀ s v ok, ((toggleRas s v ok).1).gaitData = s.gaitData) ∧
    (∀ s v ok, ((toggleHaptic s v ok).1).gaitData = s.gaitData) ∧
    (∀ s v ok, ((toggleLaser s v ok).1).gaitData = s.gaitData) ∧
    (∀ s d, (discoverEvent s d).gaitData = s.gaitData) ∧
    (∀ s, (stopScanEvent s).gaitData = s.gaitData) := by
  refine ⟨?_, rfl, rfl, rfl, rfl, fun s p => rfl, ?_, ?_,
    fun s v ok => rfl, fun s v ok => rfl, fun s v ok => rfl,
    fun s d => rfl, fun s => rfl⟩
  · intro g p h
    simp [updateListenerGait, h]
  · intro s ok
    cases hs : s.isScanning <;> cases ok <;> simp [startScan, hs]
  · intro s id c r n
    cases c <;> cases r <;> cases n <;> simp [connectToDevice]

/-- Witness for C8's length-preservation conjunct at the initial series
and an empty payload. -/
theorem C8_gait_length_invariant_witness :
    (updateListenerGait gaitDataInit []).length = 10 :=
  C8_gait_length_invariant.1 gaitDataInit [] rfl

/-- Claim C9: starting a scan while one is already in progress is a no-op:
no transport call is issued and the state, device list and scanning flag
included, is returned unchanged. -/
theorem C9_scan_noop_when_scanning (s : AppState) (ok : Bool)
    (h : s.isScanning = true) :
    startScan s ok = (s, []) := by
  simp [startScan, h]

/-- Witness for C9 at a concrete state with a scan in progress. -/
theorem C9_scan_noop_when_scanning_witness :
    startScan scanningState true = (scanningState, []) :=
  C9_scan_noop_when_scanning scanningState true rfl

/-- Membership after one discovery event comes from the accumulator or the
event itself. -/
lemma mem_discoverStep {acc : List BluetoothDevice} {e d : BluetoothDevice}
    (h : d ∈ discoverStep acc e) : d ∈ acc ∨ d = e := by
  unfold discoverStep at h
  by_cases hn : nameTruthy e.name = true
  · rw [if_pos hn] at h
    by_cases ha : acc.any (fun x => x.id == e.id) = true
    · rw [if_pos ha] at h
      exact Or.inl h
    · rw [if_neg ha] at h
      rcases List.mem_append.mp h with h1 | h1
      · exact Or.inl h1
      · exact Or.inr (List.mem_singleton.mp h1)
  · rw [if_neg hn] at h
    exact Or.inl h

/-- Membership after a whole event sequence comes from the accumulator or
from one of the events. -/
lemma mem_processDiscoveries {events : List BluetoothDevice} :
    ∀ {acc d}, d ∈ processDiscoveries acc events → d ∈ acc ∨ d ∈ events := by
  induction events with
  | nil => exact fun h => Or.inl h
  | cons e es ih =>
    intro acc d h
    rcases ih h with h1 | h1
    · rcases mem_discoverStep h1 with h2 | h2
      · exact Or.inl h2
      · exact Or.inr (by simp [h2])
    · exact Or.inr (List.mem_cons_of_mem _ h1)

/-- Claim C10: starting a scan while no scan is in progress resets the
device list to empty, so every device present after processing the new
scan's discovery events is one discovered during that scan. -/
theorem C10_scan_resets_devices (s : AppState) (ok : Bool)
    (events : List BluetoothDevice) (h : s.isScanning = false) :
    ((startScan s ok).1).devices = [] ∧
    ∀ d ∈ processDiscoveries ((startScan s ok).1).devices events, d ∈ events := by
  have hdev : ((startScan s ok).1).devices = [] := by
    cases ok <;> simp [startScan, h]
  refine ⟨hdev, ?_⟩
  intro d hd
  rw [hdev] at hd
  rcases mem_processDiscoveries hd with h1 | h1
  · simp at h1
  · exact h1

/-- Witness for C10 at the initial state and a one-event scan. -/
theorem C10_scan_resets_devices_witness :
    ((startScan initialState true).1).devices = [] ∧
    (⟨"AA:BB", some "Stick1"⟩ : BluetoothDevice) ∈
      [(⟨"AA:BB", some "Stick1"⟩ : BluetoothDevice)] :=
  ⟨(C10_scan_resets_devices initialState true [⟨"AA:BB", some "Stick1"⟩] rfl).1,
   (C10_scan_resets_devices initialState true [⟨"AA:BB", some "Stick1"⟩] rfl).2
     ⟨"AA:BB", some "Stick1"⟩ (by decide)⟩
